import Mathlib

/-!
Verification of the bearing parser and traverse builder of `bearingstoGPS`
(`src/utils/bearings_utils.py` and `src/bearingstogps.py`).

The parser works on two compiled regular expressions,

  bearing_pat = ([SOUTHsouthEAeaWwNRnr]*)\s*([^SOUTHsouthEAeaWwNRnr]*)\s*([SOUTHsouthEAeaWwNRnr]*)
  angle_pat   = ([+\-.0-9]*)[^+\-.0-9]*([+\-.0-9]*)[^+\-.0-9]*([+\-.0-9]*)

both of which are concatenations of star-quantified character classes.  We
embed `re.search` for such patterns as a backtracking matcher over `List Char`
(`matchPieces`): each starred class first takes its maximal run and backtracks
run length by run length if the remainder of the pattern fails.  Because every
piece of these patterns can match the empty string, the matcher in fact always
succeeds at offset 0 with the greedy (maximal-run) decomposition; this is
proved (`matchPieces_greedy`), not assumed.

Python floats are modelled by `ℚ`: every numeric literal the parser can meet
is decimal, and all quantities compared in the claims are far further apart
than any double-rounding error.  Python's `ValueError`s are modelled by the
error type `BErr`, with one constructor per `raise` site of the source (plus
`badFloat` for a failing `float(...)` conversion).
-/

/-- Characters of the class `[SOUTHsouthEAeaWwNRnr]` of `bearing_pat`. -/
def isCardChar (c : Char) : Bool :=
  c == 'S' || c == 'O' || c == 'U' || c == 'T' || c == 'H' ||
  c == 's' || c == 'o' || c == 'u' || c == 't' || c == 'h' ||
  c == 'E' || c == 'A' || c == 'e' || c == 'a' ||
  c == 'W' || c == 'w' || c == 'N' || c == 'R' || c == 'n' || c == 'r'

/-- Complement class `[^SOUTHsouthEAeaWwNRnr]`. -/
def isNotCardChar (c : Char) : Bool := !(isCardChar c)

/-- Characters of the class `[+\-.0-9]` of `angle_pat`. -/
def isNumChar (c : Char) : Bool :=
  c == '+' || c == '-' || c == '.' || c.isDigit

/-- Complement class `[^+\-.0-9]`. -/
def isNotNumChar (c : Char) : Bool := !(isNumChar c)

/-- Python's `\s` (and `str.strip`) on the ASCII range; the inputs of this
development contain no other whitespace. -/
def isSpaceChar (c : Char) : Bool :=
  c == ' ' || c == '\t' || c == '\n' || c == '\r' || c == '\x0b' || c == '\x0c'

/-- `str.strip()`: remove leading and trailing whitespace. -/
def strip (cs : List Char) : List Char :=
  ((cs.dropWhile isSpaceChar).reverse.dropWhile isSpaceChar).reverse

/-- One starred piece `cls*` of a pattern: try the candidate run of length `k`
(at most the maximal run), and if the rest of the pattern (the continuation
`next`) fails on the remainder, backtrack to a shorter run. -/
def tryStar (cls : Char → Bool) (cs : List Char)
    (next : List Char → Option (List (List Char))) : Nat → Option (List (List Char))
  | 0 => (next cs).map (fun gs => [] :: gs)
  | k+1 =>
    match next (cs.drop (k+1)) with
    | some gs => some (cs.take (k+1) :: gs)
    | none => tryStar cls cs next k

/-- `re.search` at offset 0 for a pattern that is a concatenation of starred
character classes: returns the list of matched runs, one per piece (trailing
unmatched input is allowed, as for `search`).  Each piece starts from its
greedy maximal run. -/
def matchPieces : List (Char → Bool) → List Char → Option (List (List Char))
  | [], _ => some []
  | cls :: ps, cs => tryStar cls cs (fun rest => matchPieces ps rest) (cs.takeWhile cls).length

/-- The pieces of `bearing_pat`; groups 1-3 of the Python match are the runs
at indices 0, 2 and 4. -/
def bearingPieces : List (Char → Bool) :=
  [isCardChar, isSpaceChar, isNotCardChar, isSpaceChar, isCardChar]

/-- The pieces of `angle_pat`; groups 1-3 are the runs at indices 0, 2, 4. -/
def anglePieces : List (Char → Bool) :=
  [isNumChar, isNotNumChar, isNumChar, isNotNumChar, isNumChar]

/-- The greedy decomposition: each starred class takes its maximal run. -/
def greedyRuns : List (Char → Bool) → List Char → List (List Char)
  | [], _ => []
  | cls :: ps, cs => cs.takeWhile cls :: greedyRuns ps (cs.dropWhile cls)

/-- Numeric value of a run of decimal digits. -/
def digitsVal (cs : List Char) : Nat :=
  cs.foldl (fun n c => 10 * n + (c.toNat - '0'.toNat)) 0

/-- Python `float(str)` on an unsigned string drawn from `[+\-.0-9]*`:
`digits`, `digits "." digits?` or `"." digits`, anything else (a stray sign, a
second dot, no digit at all) raises `ValueError`, i.e. yields `none`. -/
def parseUnsignedFloat (cs : List Char) : Option ℚ :=
  let intPart := cs.takeWhile Char.isDigit
  let rest := cs.dropWhile Char.isDigit
  match rest with
  | [] => if intPart = [] then none else some (digitsVal intPart)
  | '.' :: frac =>
    if frac.all Char.isDigit && (intPart ≠ [] || frac ≠ []) then
      some ((digitsVal intPart : ℚ) + (digitsVal frac : ℚ) / 10 ^ frac.length)
    else none
  | _ => none

/-- Python `float(str)` on a string drawn from `[+\-.0-9]*` (the only strings
it is applied to): one optional leading sign, then an unsigned float. -/
def parseFloatVal (cs : List Char) : Option ℚ :=
  match cs with
  | '+' :: rest => parseUnsignedFloat rest
  | '-' :: rest => (parseUnsignedFloat rest).map (fun v => -v)
  | _ => parseUnsignedFloat cs

/-- The contribution of one angle component: an absent component (empty
capture) contributes `0` and is skipped by the source's `!= ""` guards; a
present one is `float(...)/divisor`, `none` if `float` raises. -/
def comp (str : List Char) (divisor : ℚ) : Option ℚ :=
  if str = [] then some 0 else (parseFloatVal str).map (fun v => v / divisor)

/-- The accumulation loop of the source over the three captured angle runs:
`bearing += angle_dir * float(degrees)`, `+= angle_dir * float(minutes)/60`,
`+= angle_dir * float(seconds)/3600`, each guarded by presence; `none` exactly
when some present run fails `float` conversion (which `ValueError` is raised
first does not matter to the result). -/
def addComponents (sign base : ℚ) (dstr mstr sstr : List Char) : Option ℚ :=
  match comp dstr 1, comp mstr 60, comp sstr 3600 with
  | some vd, some vm, some vs => some (base + sign * vd + sign * vm + sign * vs)
  | _, _, _ => none

/-- The internal direction labels of the source (Python strings `"north"`,
`"south"`, `"east"`, `"west"`). -/
inductive Lbl
  | north
  | south
  | east
  | west
deriving DecidableEq

/-- The `init_str.startswith` chain of the source: initial label and base
azimuth.  Note the source's `W` branch sets the label to `"east"` (not
`"west"`) while using base 270. -/
def initBase (g : List Char) : Lbl × ℚ :=
  match g with
  | [] => (.north, 0)
  | c :: _ =>
    if c == 'E' || c == 'e' then (.east, 90)
    else if c == 'S' || c == 's' then (.south, 180)
    else if c == 'W' || c == 'w' then (.east, 270)
    else (.north, 0)

/-- The `dir_str.startswith` chain of the source: swing label, possibly
adjusted base (`bearing = 360.0` when swinging North from East), and
`angle_dir` sign. -/
def dirAdjust (init : Lbl) (base : ℚ) (g : List Char) : Lbl × ℚ × ℚ :=
  match g with
  | [] => (.east, base, if init = .south then -1 else 1)
  | c :: _ =>
    if c == 'S' || c == 's' then (.south, base, if init = .west then -1 else 1)
    else if c == 'N' || c == 'n' then
      (.north, if init = .east then 360 else base, if init = .east then -1 else 1)
    else if c == 'W' || c == 'w' then (.west, base, if init = .north then -1 else 1)
    else (.east, base, if init = .south then -1 else 1)

/-- The same-axis validation of the source, verbatim on the internal labels. -/
def axisConflict (init dir : Lbl) : Bool :=
  ((init == .south || init == .north) && (dir == .south || dir == .north)) ||
  ((init == .west || init == .east) && (dir == .west || dir == .east))

/-- The distinct `raise ValueError` sites of `parse_bearing`:
`noBearing`/`noAngle` are the two "Could not parse" branches, `sameAxis` the
axis validation, `badFloat` a failing `float(...)` conversion, `outOfRange`
the final "Invalid bearing result" check. -/
inductive BErr
  | noBearing
  | noAngle
  | sameAxis
  | badFloat
  | outOfRange
deriving DecidableEq

/-- `parse_bearing` up to (and excluding) the final normalization block: the
regex search, zone decoding, axis validation, angle search and component
accumulation. -/
def preNormalize (bearing_str : String) : Except BErr ℚ :=
  match matchPieces bearingPieces bearing_str.data with
  | none => .error .noBearing
  | some bearing_groups =>
    let init_str := bearing_groups.getD 0 []
    let angle_str := strip (bearing_groups.getD 2 [])
    let dir_str := bearing_groups.getD 4 []
    let ib := initBase init_str
    let da := dirAdjust ib.1 ib.2 dir_str
    if axisConflict ib.1 da.1 then .error .sameAxis
    else
      match matchPieces anglePieces angle_str with
      | none => .error .noAngle
      | some angle_groups =>
        match addComponents da.2.2 da.2.1 (angle_groups.getD 0 [])
            (angle_groups.getD 2 []) (angle_groups.getD 4 []) with
        | none => .error .badFloat
        | some bearing => .ok bearing

/-- `parse_bearing` of the source: `preNormalize` followed by the final block
`if bearing < 0: bearing += 360` / `if bearing < 0 or bearing > 360: raise`. -/
def parse_bearing (bearing_str : String) : Except BErr ℚ :=
  match preNormalize bearing_str with
  | .error e => .error e
  | .ok bearing =>
    let bearing2 := if bearing < 0 then bearing + 360 else bearing
    if bearing2 < 0 ∨ bearing2 > 360 then .error .outOfRange else .ok bearing2

/-- Group 1 of `bearing_pat`: the prefix zone. -/
def zone1 (s : String) : List Char := s.data.takeWhile isCardChar

/-- Group 2 of `bearing_pat`: the middle zone (before `strip`). -/
def midScan (s : String) : List Char :=
  ((s.data.dropWhile isCardChar).dropWhile isSpaceChar).takeWhile isNotCardChar

/-- Group 3 of `bearing_pat`: the suffix zone. -/
def zone3 (s : String) : List Char :=
  ((((s.data.dropWhile isCardChar).dropWhile isSpaceChar).dropWhile
    isNotCardChar).dropWhile isSpaceChar).takeWhile isCardChar

/-- The stripped middle zone, the string `angle_pat` is searched in. -/
def angleStr (s : String) : List Char := strip (midScan s)

/-- Group 1 of `angle_pat`: the degrees run. -/
def aRun1 (s : String) : List Char := (angleStr s).takeWhile isNumChar

/-- Group 2 of `angle_pat`: the minutes run. -/
def aRun2 (s : String) : List Char :=
  (((angleStr s).dropWhile isNumChar).dropWhile isNotNumChar).takeWhile isNumChar

/-- Group 3 of `angle_pat`: the seconds run. -/
def aRun3 (s : String) : List Char :=
  (((((angleStr s).dropWhile isNumChar).dropWhile isNotNumChar).dropWhile
    isNumChar).dropWhile isNotNumChar).takeWhile isNumChar

/-- The unsigned angle magnitude `degrees + minutes/60 + seconds/3600` of an
input, as far as its runs convert (sign `1`, base `0`). -/
def componentsVal (s : String) : Option ℚ :=
  addComponents 1 0 (aRun1 s) (aRun2 s) (aRun3 s)

/-- Cardinal directions, as the spec's §4.1 decodes them from the zones. -/
inductive Card
  | north
  | south
  | east
  | west
deriving DecidableEq

/-- Spec-side decoding of the prefix zone: `E`→East, `S`→South, `W`→West,
anything else (or empty) → North. -/
def initialCard (g : List Char) : Card :=
  match g with
  | [] => .north
  | c :: _ =>
    if c == 'E' || c == 'e' then .east
    else if c == 'S' || c == 's' then .south
    else if c == 'W' || c == 'w' then .west
    else .north

/-- Spec-side decoding of the suffix zone: `S`→South, `N`→North, `W`→West,
anything else (or empty) → East. -/
def swingCard (g : List Char) : Card :=
  match g with
  | [] => .east
  | c :: _ =>
    if c == 'S' || c == 's' then .south
    else if c == 'N' || c == 'n' then .north
    else if c == 'W' || c == 'w' then .west
    else .east

/-- The initial reference of an input, in the spec's decoding. -/
def initialRef (s : String) : Card := initialCard (zone1 s)

/-- The swing direction of an input, in the spec's decoding. -/
def swingDir (s : String) : Card := swingCard (zone3 s)

/-- How the source labels each decoded initial reference internally:
West is labelled `"east"` (the documented quirk). -/
def cardLabel : Card → Lbl
  | .north => .north
  | .south => .south
  | .east => .east
  | .west => .east

/-- The source's swing labels agree with the decoded cardinal. -/
def swingLabel : Card → Lbl
  | .north => .north
  | .south => .south
  | .east => .east
  | .west => .west

/-- The same-axis condition of the claim: both directions on the North/South
axis, or both on the East/West axis. -/
def sameAxisPair (i w : Card) : Bool :=
  ((i == .north || i == .south) && (w == .north || w == .south)) ||
  ((i == .east || i == .west) && (w == .east || w == .west))

/-- Does the (possibly empty) zone start with one of two given letters? -/
def headIs (cs : List Char) (a b : Char) : Bool :=
  match cs with
  | c :: _ => c == a || c == b
  | [] => false

/-- The suffix-zone condition of the `else  # east` branch: empty, or starting
with none of `S/s`, `N/n`, `W/w`. -/
def eastSwing (cs : List Char) : Bool :=
  !(headIs cs 'S' 's' || headIs cs 'N' 'n' || headIs cs 'W' 'w')

/-- A traverse point, `geopy.Point(lat, lon)`. -/
structure Point where
  lat : ℚ
  lon : ℚ
deriving DecidableEq

/-- One row of the input table: a bearing string and a distance. -/
structure Record where
  bearing : String
  distance : ℚ
deriving DecidableEq

/-- The unit conversion of the main loop:
`if units == "poles" or units == "rods": distance *= 16.5`. -/
def convDistance (units : String) (d : ℚ) : ℚ :=
  if units = "poles" ∨ units = "rods" then d * 16.5 else d

/-- The main loop of `bearingstogps.py`, abstracted over the external geodesic
destination capability `geo start azimuth distanceFeet`: from the current last
point, parse each record's bearing, convert its distance, step, and append;
a `ValueError` from the parser aborts the whole traverse. -/
def tracePoints (geo : Point → ℚ → ℚ → Point) (units : String) :
    Point → List Record → Except BErr (List Point)
  | _, [] => .ok []
  | cur, r :: rs =>
    let distance := convDistance units r.distance
    match parse_bearing r.bearing with
    | .error e => .error e
    | .ok bearing =>
      let end_point := geo cur bearing distance
      match tracePoints geo units end_point rs with
      | .error e => .error e
      | .ok pts => .ok (end_point :: pts)

/-- The full point sequence: the origin followed by the traversed points
(`points = [geopy.Point(lat, lon)]` then one append per record). -/
def points (geo : Point → ℚ → ℚ → Point) (units : String) (origin : Point)
    (records : List Record) : Except BErr (List Point) :=
  (tracePoints geo units origin records).map (fun rest => origin :: rest)

/-- Whether an `Except` result is a success. -/
def exceptIsOk : Except BErr ℚ → Bool
  | .ok _ => true
  | .error _ => false

/-- Default record for indexed access. -/
def dRec : Record := { bearing := "", distance := 0 }

/-- Default point for indexed access. -/
def dPt : Point := { lat := 0, lon := 0 }

/-- The concrete geodesic stand-in used by witnesses. -/
def geoShift (p : Point) (b d : ℚ) : Point := { lat := p.lat + b, lon := p.lon + d }

theorem take_len_takeWhile (p : Char → Bool) :
    ∀ cs : List Char, cs.take (cs.takeWhile p).length = cs.takeWhile p
  | [] => rfl
  | c :: t => by
    cases hpc : p c <;>
      simp [List.takeWhile_cons, hpc, take_len_takeWhile p t]

theorem drop_len_takeWhile (p : Char → Bool) :
    ∀ cs : List Char, cs.drop (cs.takeWhile p).length = cs.dropWhile p
  | [] => rfl
  | c :: t => by
    cases hpc : p c <;>
      simp [List.takeWhile_cons, List.dropWhile_cons, hpc, drop_len_takeWhile p t]

theorem tryStar_total (cls : Char → Bool) (next : List Char → Option (List (List Char)))
    (f : List Char → List (List Char)) (hnext : ∀ rest, next rest = some (f rest)) :
    ∀ (cs : List Char) (k : Nat), tryStar cls cs next k = some (cs.take k :: f (cs.drop k))
  | cs, 0 => by simp [tryStar, hnext cs]
  | cs, k+1 => by simp [tryStar, hnext (cs.drop (k+1))]

/-- A pattern all of whose pieces are starred always matches, with the greedy
maximal-run decomposition: the backtracking of `tryStar` never fires because
the rest of the pattern cannot fail. -/
theorem matchPieces_greedy :
    ∀ (ps : List (Char → Bool)) (cs : List Char),
      matchPieces ps cs = some (greedyRuns ps cs)
  | [], _ => rfl
  | p :: ps, cs => by
    rw [matchPieces, greedyRuns,
      tryStar_total p (fun rest => matchPieces ps rest) (greedyRuns ps)
        (fun rest => matchPieces_greedy ps rest) cs (cs.takeWhile p).length,
      take_len_takeWhile, drop_len_takeWhile]

/-- `preNormalize` written out over the greedy zone and run decompositions. -/
theorem preNormalize_eq (s : String) :
    preNormalize s =
      (if axisConflict (initBase (zone1 s)).1
          (dirAdjust (initBase (zone1 s)).1 (initBase (zone1 s)).2 (zone3 s)).1 then
        .error .sameAxis
      else
        match addComponents
            (dirAdjust (initBase (zone1 s)).1 (initBase (zone1 s)).2 (zone3 s)).2.2
            (dirAdjust (initBase (zone1 s)).1 (initBase (zone1 s)).2 (zone3 s)).2.1
            (aRun1 s) (aRun2 s) (aRun3 s) with
        | none => .error .badFloat
        | some bearing => .ok bearing) := by
  simp only [preNormalize, matchPieces_greedy, bearingPieces, anglePieces, greedyRuns,
    List.getD_cons_zero, List.getD_cons_succ, zone1, zone3, aRun1, aRun2, aRun3,
    angleStr, midScan]

theorem parse_bearing_of_pre_ok (s : String) (b : ℚ) (h : preNormalize s = .ok b) :
    parse_bearing s =
      (if (if b < 0 then b + 360 else b) < 0 ∨ (if b < 0 then b + 360 else b) > 360 then
        .error .outOfRange
      else .ok (if b < 0 then b + 360 else b)) := by
  simp only [parse_bearing, h]

theorem parse_bearing_of_pre_err (s : String) (e : BErr) (h : preNormalize s = .error e) :
    parse_bearing s = .error e := by
  simp only [parse_bearing, h]

theorem addComponents_shift (sign base : ℚ) (d m s : List Char) :
    addComponents sign base d m s =
      (addComponents 1 0 d m s).map (fun a => base + sign * a) := by
  unfold addComponents
  cases comp d 1 <;> cases comp m 60 <;> cases comp s 3600 <;> simp
  ring

theorem preNormalize_sameAxis_iff (s : String) :
    preNormalize s = .error .sameAxis ↔
      axisConflict (initBase (zone1 s)).1
        (dirAdjust (initBase (zone1 s)).1 (initBase (zone1 s)).2 (zone3 s)).1 = true := by
  rw [preNormalize_eq]
  cases hc : axisConflict (initBase (zone1 s)).1
      (dirAdjust (initBase (zone1 s)).1 (initBase (zone1 s)).2 (zone3 s)).1
  · simp only [Bool.false_eq_true, if_false]
    cases addComponents (dirAdjust (initBase (zone1 s)).1 (initBase (zone1 s)).2 (zone3 s)).2.2
        (dirAdjust (initBase (zone1 s)).1 (initBase (zone1 s)).2 (zone3 s)).2.1
        (aRun1 s) (aRun2 s) (aRun3 s)
    all_goals simp
  · simp

theorem parse_bearing_sameAxis_iff (s : String) :
    parse_bearing s = .error .sameAxis ↔ preNormalize s = .error .sameAxis := by
  unfold parse_bearing
  cases hp : preNormalize s with
  | error e => simp
  | ok b =>
    simp only
    constructor
    · intro h
      split at h <;> split at h <;> simp_all
    · intro h
      simp_all

theorem initBase_fst (g : List Char) : (initBase g).1 = cardLabel (initialCard g) := by
  cases g with
  | nil => rfl
  | cons c t =>
    simp only [initBase, initialCard]
    split_ifs <;> rfl

theorem dirAdjust_fst (init : Lbl) (base : ℚ) (g : List Char) :
    (dirAdjust init base g).1 = swingLabel (swingCard g) := by
  cases g with
  | nil => rfl
  | cons c t =>
    simp only [dirAdjust, swingCard]
    split_ifs <;> rfl

theorem axisConflict_label (i w : Card) :
    axisConflict (cardLabel i) (swingLabel w) = sameAxisPair i w := by
  cases i <;> cases w <;> rfl

/- Concrete evaluations of the parser used by several claim proofs below. -/
theorem eval_S465926E : parse_bearing "S 46 59 26 E" = .ok (239417/1800) := by
  have h := preNormalize_eq "S 46 59 26 E"
  have hz1 : zone1 "S 46 59 26 E" = ['S'] := by decide
  have hz3 : zone3 "S 46 59 26 E" = ['E'] := by decide
  have hr1 : aRun1 "S 46 59 26 E" = ['4', '6'] := by decide
  have hr2 : aRun2 "S 46 59 26 E" = ['5', '9'] := by decide
  have hr3 : aRun3 "S 46 59 26 E" = ['2', '6'] := by decide
  rw [hz1, hz3, hr1, hr2, hr3] at h
  simp +decide [initBase, dirAdjust, axisConflict, addComponents, comp, parseFloatVal,
    parseUnsignedFloat, digitsVal, List.takeWhile, List.dropWhile, List.all] at h
  rw [parse_bearing_of_pre_ok _ _ h]
  norm_num

theorem eval_N : parse_bearing "N" = .ok 0 := by
  have h := preNormalize_eq "N"
  have hz1 : zone1 "N" = ['N'] := by decide
  have hz3 : zone3 "N" = [] := by decide
  have hr1 : aRun1 "N" = [] := by decide
  have hr2 : aRun2 "N" = [] := by decide
  have hr3 : aRun3 "N" = [] := by decide
  rw [hz1, hz3, hr1, hr2, hr3] at h
  simp +decide [initBase, dirAdjust, axisConflict, addComponents, comp] at h
  rw [parse_bearing_of_pre_ok _ _ h]
  norm_num

theorem eval_S : parse_bearing "S" = .ok 180 := by
  have h := preNormalize_eq "S"
  have hz1 : zone1 "S" = ['S'] := by decide
  have hz3 : zone3 "S" = [] := by decide
  have hr1 : aRun1 "S" = [] := by decide
  have hr2 : aRun2 "S" = [] := by decide
  have hr3 : aRun3 "S" = [] := by decide
  rw [hz1, hz3, hr1, hr2, hr3] at h
  simp +decide [initBase, dirAdjust, axisConflict, addComponents, comp] at h
  rw [parse_bearing_of_pre_ok _ _ h]
  norm_num

theorem eval_E : parse_bearing "E" = .error .sameAxis := by
  have h := preNormalize_eq "E"
  have hz1 : zone1 "E" = ['E'] := by decide
  have hz3 : zone3 "E" = [] := by decide
  rw [hz1, hz3] at h
  simp +decide [initBase, dirAdjust, axisConflict] at h
  exact parse_bearing_of_pre_err _ _ h

theorem eval_W : parse_bearing "W" = .error .sameAxis := by
  have h := preNormalize_eq "W"
  have hz1 : zone1 "W" = ['W'] := by decide
  have hz3 : zone3 "W" = [] := by decide
  rw [hz1, hz3] at h
  simp +decide [initBase, dirAdjust, axisConflict] at h
  exact parse_bearing_of_pre_err _ _ h

theorem eval_NorthEastNorth : parse_bearing "north 10 east north" = .ok 10 := by
  have h := preNormalize_eq "north 10 east north"
  have hz1 : zone1 "north 10 east north" = ['n', 'o', 'r', 't', 'h'] := by decide
  have hz3 : zone3 "north 10 east north" = ['e', 'a', 's', 't'] := by decide
  have hr1 : aRun1 "north 10 east north" = ['1', '0'] := by decide
  have hr2 : aRun2 "north 10 east north" = [] := by decide
  have hr3 : aRun3 "north 10 east north" = [] := by decide
  rw [hz1, hz3, hr1, hr2, hr3] at h
  simp +decide [initBase, dirAdjust, axisConflict, addComponents, comp, parseFloatVal,
    parseUnsignedFloat, digitsVal, List.takeWhile, List.dropWhile, List.all] at h
  rw [parse_bearing_of_pre_ok _ _ h]
  norm_num

theorem eval_N090E : parse_bearing "N 0 90 E" = .ok (3/2) := by
  have h := preNormalize_eq "N 0 90 E"
  have hz1 : zone1 "N 0 90 E" = ['N'] := by decide
  have hz3 : zone3 "N 0 90 E" = ['E'] := by decide
  have hr1 : aRun1 "N 0 90 E" = ['0'] := by decide
  have hr2 : aRun2 "N 0 90 E" = ['9', '0'] := by decide
  have hr3 : aRun3 "N 0 90 E" = [] := by decide
  rw [hz1, hz3, hr1, hr2, hr3] at h
  simp +decide [initBase, dirAdjust, axisConflict, addComponents, comp, parseFloatVal,
    parseUnsignedFloat, digitsVal, List.takeWhile, List.dropWhile, List.all] at h
  rw [parse_bearing_of_pre_ok _ _ h]
  norm_num

theorem eval_dot : parse_bearing "." = .error .badFloat := by
  have h := preNormalize_eq "."
  have hz1 : zone1 "." = [] := by decide
  have hz3 : zone3 "." = [] := by decide
  have hr1 : aRun1 "." = ['.'] := by decide
  have hr2 : aRun2 "." = [] := by decide
  have hr3 : aRun3 "." = [] := by decide
  rw [hz1, hz3, hr1, hr2, hr3] at h
  simp +decide [initBase, dirAdjust, axisConflict, addComponents, comp, parseFloatVal,
    parseUnsignedFloat, List.takeWhile, List.dropWhile, List.all] at h
  exact parse_bearing_of_pre_err _ _ h

theorem eval_S10E : parse_bearing "S 10 E" = .ok 170 := by
  have h := preNormalize_eq "S 10 E"
  have hz1 : zone1 "S 10 E" = ['S'] := by decide
  have hz3 : zone3 "S 10 E" = ['E'] := by decide
  have hr1 : aRun1 "S 10 E" = ['1', '0'] := by decide
  have hr2 : aRun2 "S 10 E" = [] := by decide
  have hr3 : aRun3 "S 10 E" = [] := by decide
  rw [hz1, hz3, hr1, hr2, hr3] at h
  simp +decide [initBase, dirAdjust, axisConflict, addComponents, comp, parseFloatVal,
    parseUnsignedFloat, digitsVal, List.takeWhile, List.dropWhile, List.all] at h
  rw [parse_bearing_of_pre_ok _ _ h]
  norm_num

theorem preNormalize_N10W : preNormalize "N 10 W" = .ok (-10) := by
  have h := preNormalize_eq "N 10 W"
  have hz1 : zone1 "N 10 W" = ['N'] := by decide
  have hz3 : zone3 "N 10 W" = ['W'] := by decide
  have hr1 : aRun1 "N 10 W" = ['1', '0'] := by decide
  have hr2 : aRun2 "N 10 W" = [] := by decide
  have hr3 : aRun3 "N 10 W" = [] := by decide
  rw [hz1, hz3, hr1, hr2, hr3] at h
  simp +decide [initBase, dirAdjust, axisConflict, addComponents, comp, parseFloatVal,
    parseUnsignedFloat, digitsVal, List.takeWhile, List.dropWhile, List.all] at h
  exact h

theorem compVal_S10E : componentsVal "S 10 E" = some 10 := by
  have hr1 : aRun1 "S 10 E" = ['1', '0'] := by decide
  have hr2 : aRun2 "S 10 E" = [] := by decide
  have hr3 : aRun3 "S 10 E" = [] := by decide
  simp +decide [componentsVal, hr1, hr2, hr3, addComponents, comp, parseFloatVal,
    parseUnsignedFloat, digitsVal, List.takeWhile, List.dropWhile, List.all]

theorem compVal_W10S : componentsVal "W 10 S" = some 10 := by
  have hr1 : aRun1 "W 10 S" = ['1', '0'] := by decide
  have hr2 : aRun2 "W 10 S" = [] := by decide
  have hr3 : aRun3 "W 10 S" = [] := by decide
  simp +decide [componentsVal, hr1, hr2, hr3, addComponents, comp, parseFloatVal,
    parseUnsignedFloat, digitsVal, List.takeWhile, List.dropWhile, List.all]

theorem eval_W10S : parse_bearing "W 10 S" = .ok 280 := by
  have h := preNormalize_eq "W 10 S"
  have hz1 : zone1 "W 10 S" = ['W'] := by decide
  have hz3 : zone3 "W 10 S" = ['S'] := by decide
  have hr1 : aRun1 "W 10 S" = ['1', '0'] := by decide
  have hr2 : aRun2 "W 10 S" = [] := by decide
  have hr3 : aRun3 "W 10 S" = [] := by decide
  rw [hz1, hz3, hr1, hr2, hr3] at h
  simp +decide [initBase, dirAdjust, axisConflict, addComponents, comp, parseFloatVal,
    parseUnsignedFloat, digitsVal, List.takeWhile, List.dropWhile, List.all] at h
  rw [parse_bearing_of_pre_ok _ _ h]
  norm_num

/-- Inductive core for the traverse claim: the loop consumes records in
order, producing one point per record, each the geodesic step from its
predecessor. -/
theorem tracePoints_spec (geo : Point → ℚ → ℚ → Point) (units : String) :
    ∀ (records : List Record) (origin : Point),
      (∀ r ∈ records, exceptIsOk (parse_bearing r.bearing) = true) →
      ∃ rest, tracePoints geo units origin records = .ok rest ∧
        rest.length = records.length ∧
        ∀ i, i < records.length →
          ∃ q, parse_bearing ((records.getD i dRec).bearing) = .ok q ∧
            (origin :: rest).getD (i + 1) dPt =
              geo ((origin :: rest).getD i dPt) q
                (convDistance units ((records.getD i dRec).distance)) := by
  intro records
  induction records with
  | nil =>
    intro origin _
    exact ⟨[], rfl, rfl, by intro i hi; exact absurd hi (by simp)⟩
  | cons r rs ih =>
    intro origin hall
    obtain ⟨q0, hq0⟩ : ∃ q, parse_bearing r.bearing = .ok q := by
      have hr := hall r (List.mem_cons_self r rs)
      cases hpb : parse_bearing r.bearing with
      | ok b => exact ⟨b, rfl⟩
      | error e => rw [hpb] at hr; exact absurd hr (by simp [exceptIsOk])
    obtain ⟨rest, hrest, hlen, hidx⟩ :=
      ih (geo origin q0 (convDistance units r.distance))
        (fun x hx => hall x (List.mem_cons_of_mem r hx))
    refine ⟨geo origin q0 (convDistance units r.distance) :: rest, ?_, by simp [hlen], ?_⟩
    · simp only [tracePoints, hq0, hrest]
    · intro i hi
      cases i with
      | zero =>
        exact ⟨q0, by simpa using hq0, by simp⟩
      | succ j =>
        have hj : j < rs.length := by simpa using hi
        obtain ⟨q, hq, hpt⟩ := hidx j hj
        exact ⟨q, by simpa using hq, by simpa using hpt⟩

/- Claim theorems. -/

/-- C1 (counterexample): the claim says `parse_bearing "S 46 59 26 E"` is
within `1e-3` of `180.99056`; in fact the source subtracts the angle from the
South base (the `S ... E` quadrant has `angle_dir = -1`), returning
`180 - 46 - 59/60 - 26/3600 = 239417/1800 ≈ 133.00944`, which is nowhere near
the claimed value. -/
theorem parse_S465926E_refutes_spec_value :
    parse_bearing "S 46 59 26 E" = .ok (239417 / 1800) ∧
    ¬ |(239417 / 1800 : ℚ) - 18099056 / 100000| ≤ 1 / 1000 := by
  refine ⟨eval_S465926E, ?_⟩
  rw [abs_of_nonpos (by norm_num)]
  norm_num

/-- C1 (amended): `parse_bearing "S 46 59 26 E"` returns
`180 - (46 + 59/60 + 26/3600) = 239417/1800 ≈ 133.00944` (within `1e-3`), and
a one-record traverse with this bearing and distance 95 feet produces exactly
the origin followed by the geodesic step at that azimuth and 95 feet. -/
theorem parse_S465926E_value_and_traverse :
    parse_bearing "S 46 59 26 E" = .ok (239417 / 1800) ∧
    |(239417 / 1800 : ℚ) - 13300944 / 100000| ≤ 1 / 1000 ∧
    ∀ (geo : Point → ℚ → ℚ → Point) (origin : Point),
      points geo "feet" origin [{ bearing := "S 46 59 26 E", distance := 95 }] =
        .ok [origin, geo origin (239417 / 1800) 95] := by
  refine ⟨eval_S465926E, ?_, ?_⟩
  · rw [abs_of_nonneg (by norm_num)]
    norm_num
  · intro geo origin
    have h95 : convDistance "feet" 95 = 95 := by simp +decide [convDistance]
    simp only [points, tracePoints, h95, eval_S465926E, Except.map]

/-- C2: for every input whose prefix zone begins with `S`/`s` and whose suffix
zone is empty or begins with `E`/`e` or any other non-swing letter, a
successful parse returns `180 - (degrees + minutes/60 + seconds/3600)`, with
360 added when that value is negative. -/
theorem south_east_swing_value (s : String) (q : ℚ)
    (h1 : headIs (zone1 s) 'S' 's' = true)
    (h2 : eastSwing (zone3 s) = true)
    (hq : parse_bearing s = .ok q) :
    ∃ a, componentsVal s = some a ∧
      q = (if 180 - a < 0 then 180 - a + 360 else 180 - a) := by
  have hib : initBase (zone1 s) = (Lbl.south, 180) := by
    cases hz : zone1 s with
    | nil => rw [hz] at h1; exact absurd h1 (by simp [headIs])
    | cons c t =>
      rw [hz] at h1
      simp only [headIs, Bool.or_eq_true, beq_iff_eq] at h1
      rcases h1 with h | h <;> subst h <;> rfl
  have hda : dirAdjust Lbl.south 180 (zone3 s) = (Lbl.east, 180, -1) := by
    cases hz : zone3 s with
    | nil => rfl
    | cons c t =>
      rw [hz] at h2
      simp only [eastSwing, headIs, Bool.not_eq_true', Bool.or_eq_false_iff] at h2
      obtain ⟨⟨hS, hN⟩, hW⟩ := h2
      simp [dirAdjust, hS, hN, hW]
  have hpre := preNormalize_eq s
  rw [hib] at hpre
  dsimp only at hpre
  rw [hda] at hpre
  dsimp only at hpre
  rw [show axisConflict Lbl.south Lbl.east = false from rfl] at hpre
  simp only [Bool.false_eq_true, if_false] at hpre
  rw [addComponents_shift,
    show addComponents 1 0 (aRun1 s) (aRun2 s) (aRun3 s) = componentsVal s from rfl] at hpre
  cases hcv : componentsVal s with
  | none =>
    rw [hcv] at hpre
    simp only [Option.map_none'] at hpre
    rw [parse_bearing_of_pre_err _ _ hpre] at hq
    exact absurd hq (by simp)
  | some a =>
    rw [hcv] at hpre
    simp only [Option.map_some'] at hpre
    have harith : (180 : ℚ) + (-1) * a = 180 - a := by ring
    rw [harith] at hpre
    rw [parse_bearing_of_pre_ok _ _ hpre] at hq
    refine ⟨a, rfl, ?_⟩
    by_cases hc : (if 180 - a < 0 then 180 - a + 360 else 180 - a) < 0 ∨
        (if 180 - a < 0 then 180 - a + 360 else 180 - a) > 360
    · rw [if_pos hc] at hq
      exact absurd hq (by simp)
    · rw [if_neg hc] at hq
      exact (Except.ok.inj hq).symm

/-- C2 witness: `"S 10 E"` satisfies the hypotheses and parses to
`180 - 10 = 170`. -/
theorem south_east_swing_value_witness :
    ∃ a, componentsVal "S 10 E" = some a ∧
      (170 : ℚ) = (if 180 - a < 0 then 180 - a + 360 else 180 - a) :=
  south_east_swing_value "S 10 E" 170 (by decide) (by decide) eval_S10E

/-- C3: the four single-letter bearings.  `"N"` and `"S"` parse to 0 and 180
as claimed, but `"E"` and `"W"` both hit the same-axis validation (the default
swing is East, and the `W` prefix is labelled `"east"` internally), raising
the error instead of returning 90 and 270. -/
theorem parse_bearing_cardinal_letters :
    parse_bearing "N" = .ok 0 ∧ parse_bearing "S" = .ok 180 ∧
    parse_bearing "E" = .error .sameAxis ∧ parse_bearing "W" = .error .sameAxis :=
  ⟨eval_N, eval_S, eval_E, eval_W⟩

/-- C4: the parse fails with the same-axis error exactly when the decoded
initial reference and swing direction (in the spec's decoding, where a `W`
prefix means West) lie on the same axis; the internal `"east"` labelling of a
West prefix does not change axis membership, so the validation fires exactly
as the claim states. -/
theorem sameAxis_error_iff (s : String) :
    parse_bearing s = .error .sameAxis ↔
      sameAxisPair (initialRef s) (swingDir s) = true := by
  rw [parse_bearing_sameAxis_iff, preNormalize_sameAxis_iff, initBase_fst, dirAdjust_fst,
    axisConflict_label]
  exact Iff.rfl

/-- C4 witness: `"N 10 N"` has initial North and swing North, and indeed fails
with the same-axis error. -/
theorem sameAxis_error_iff_witness : parse_bearing "N 10 N" = .error .sameAxis :=
  (sameAxis_error_iff "N 10 N").mpr (by decide)

/-- C5: every successful parse returns a value in `[0, 360]`; when the
accumulated azimuth (the value before the normalization block) is negative,
360 is added exactly once, and the parse fails with the out-of-range error
exactly when the value after this single adjustment is still outside
`[0, 360]`. -/
theorem parse_bearing_range_norm (s : String) :
    (∀ q : ℚ, parse_bearing s = .ok q → 0 ≤ q ∧ q ≤ 360) ∧
    (∀ b : ℚ, preNormalize s = .ok b →
      parse_bearing s =
        (if (if b < 0 then b + 360 else b) < 0 ∨ (if b < 0 then b + 360 else b) > 360 then
          .error .outOfRange
        else .ok (if b < 0 then b + 360 else b))) := by
  constructor
  · intro q hq
    cases hp : preNormalize s with
    | error e =>
      rw [parse_bearing_of_pre_err s e hp] at hq
      exact absurd hq (by simp)
    | ok b =>
      rw [parse_bearing_of_pre_ok s b hp] at hq
      by_cases hc : (if b < 0 then b + 360 else b) < 0 ∨ (if b < 0 then b + 360 else b) > 360
      · rw [if_pos hc] at hq
        exact absurd hq (by simp)
      · rw [if_neg hc] at hq
        push_neg at hc
        obtain ⟨h1, h2⟩ := hc
        obtain rfl := (Except.ok.inj hq)
        exact ⟨h1, h2⟩
  · intro b hb
    exact parse_bearing_of_pre_ok s b hb

/-- C5 witness: `"N 10 W"` accumulates `-10`, gets 360 added once, and returns
350, which lies in `[0, 360]`. -/
theorem parse_bearing_range_norm_witness :
    parse_bearing "N 10 W" = .ok 350 ∧ 0 ≤ (350 : ℚ) ∧ (350 : ℚ) ≤ 360 := by
  have h2 := (parse_bearing_range_norm "N 10 W").2 (-10) preNormalize_N10W
  norm_num at h2
  have h1 := (parse_bearing_range_norm "N 10 W").1 350 h2
  exact ⟨h2, h1⟩

/-- C6 (counterexample): the claim says a `W ... S` bearing has sign `-1` so
`"W 10 S"` would give `270 - 10 = 260`; the source labels a `W` prefix
`"east"`, so the `init == "west"` test of the `S` swing branch never fires,
the sign stays `+1`, and `"W 10 S"` parses to 280. -/
theorem parse_W10S_eq_280 :
    parse_bearing "W 10 S" = .ok 280 ∧ (280 : ℚ) ≠ 270 - 10 := by
  refine ⟨eval_W10S, by norm_num⟩

/-- C6 (amended): for every input whose prefix zone begins with `W`/`w` and
whose suffix zone begins with `S`/`s`, the sign is `+1` (the `init == "west"`
test cannot fire because the `W` prefix is labelled `"east"`), so a successful
parse returns `270 + (degrees + minutes/60 + seconds/3600)`, with 360 added
when that value is negative; e.g. `"W 10 S"` yields 280. -/
theorem west_south_swing_value (s : String) (q : ℚ)
    (h1 : headIs (zone1 s) 'W' 'w' = true)
    (h2 : headIs (zone3 s) 'S' 's' = true)
    (hq : parse_bearing s = .ok q) :
    ∃ a, componentsVal s = some a ∧
      q = (if 270 + a < 0 then 270 + a + 360 else 270 + a) := by
  have hib : initBase (zone1 s) = (Lbl.east, 270) := by
    cases hz : zone1 s with
    | nil => rw [hz] at h1; exact absurd h1 (by simp [headIs])
    | cons c t =>
      rw [hz] at h1
      simp only [headIs, Bool.or_eq_true, beq_iff_eq] at h1
      rcases h1 with h | h <;> subst h <;> rfl
  have hda : dirAdjust Lbl.east 270 (zone3 s) = (Lbl.south, 270, 1) := by
    cases hz : zone3 s with
    | nil => rw [hz] at h2; exact absurd h2 (by simp [headIs])
    | cons c t =>
      rw [hz] at h2
      simp only [headIs, Bool.or_eq_true, beq_iff_eq] at h2
      rcases h2 with h | h <;> subst h <;> rfl
  have hpre := preNormalize_eq s
  rw [hib] at hpre
  dsimp only at hpre
  rw [hda] at hpre
  dsimp only at hpre
  rw [show axisConflict Lbl.east Lbl.south = false from rfl] at hpre
  simp only [Bool.false_eq_true, if_false] at hpre
  rw [addComponents_shift,
    show addComponents 1 0 (aRun1 s) (aRun2 s) (aRun3 s) = componentsVal s from rfl] at hpre
  cases hcv : componentsVal s with
  | none =>
    rw [hcv] at hpre
    simp only [Option.map_none'] at hpre
    rw [parse_bearing_of_pre_err _ _ hpre] at hq
    exact absurd hq (by simp)
  | some a =>
    rw [hcv] at hpre
    simp only [Option.map_some'] at hpre
    have harith : (270 : ℚ) + 1 * a = 270 + a := by ring
    rw [harith] at hpre
    rw [parse_bearing_of_pre_ok _ _ hpre] at hq
    refine ⟨a, rfl, ?_⟩
    by_cases hc : (if 270 + a < 0 then 270 + a + 360 else 270 + a) < 0 ∨
        (if 270 + a < 0 then 270 + a + 360 else 270 + a) > 360
    · rw [if_pos hc] at hq
      exact absurd hq (by simp)
    · rw [if_neg hc] at hq
      exact (Except.ok.inj hq).symm

/-- C6 witness: `"W 10 S"` satisfies the hypotheses and parses to
`270 + 10 = 280`. -/
theorem west_south_swing_value_witness :
    ∃ a, componentsVal "W 10 S" = some a ∧
      (280 : ℚ) = (if 270 + a < 0 then 270 + a + 360 else 270 + a) :=
  west_south_swing_value "W 10 S" 280 (by decide) (by decide) eval_W10S

/-- C7 (counterexample): the claim says `"north 10 east north"` fails with the
same-axis error; it in fact parses successfully to 10. -/
theorem parse_north10eastnorth_no_error : parse_bearing "north 10 east north" = .ok 10 :=
  eval_NorthEastNorth

/-- C7 (amended): `parse_bearing "north 10 east north"` succeeds and returns
10: the suffix zone captured by the regex is only `"east"` (the match stops at
the space before the trailing `"north"`), so the decoded pair is
North/East, which is not a same-axis conflict. -/
theorem parse_north10eastnorth_explained :
    parse_bearing "north 10 east north" = .ok 10 ∧
    zone3 "north 10 east north" = ['e', 'a', 's', 't'] ∧
    sameAxisPair (initialRef "north 10 east north") (swingDir "north 10 east north") = false :=
  ⟨eval_NorthEastNorth, by decide, by decide⟩

/-- C8: for every origin and every record list whose bearings all parse, the
traverse succeeds and yields `records.length + 1` points, the first being the
origin and each following point the geodesic destination from its predecessor
at the parsed azimuth and the unit-converted distance, records being consumed
in input order; the conversion is the identity for feet and `× 16.5` for poles
and rods. -/
theorem points_traverse_spec (geo : Point → ℚ → ℚ → Point) (units : String) (origin : Point)
    (records : List Record)
    (hall : ∀ r ∈ records, exceptIsOk (parse_bearing r.bearing) = true) :
    ∃ pts, points geo units origin records = .ok pts ∧
      pts.length = records.length + 1 ∧
      pts.getD 0 dPt = origin ∧
      (∀ i, i < records.length →
        ∃ q, parse_bearing ((records.getD i dRec).bearing) = .ok q ∧
          pts.getD (i + 1) dPt =
            geo (pts.getD i dPt) q (convDistance units ((records.getD i dRec).distance))) ∧
      (∀ d : ℚ, convDistance "feet" d = d ∧ convDistance "poles" d = d * 16.5 ∧
        convDistance "rods" d = d * 16.5) := by
  obtain ⟨rest, h1, h2, h3⟩ := tracePoints_spec geo units records origin hall
  refine ⟨origin :: rest, ?_, by simp [h2], by simp, h3, ?_⟩
  · simp only [points, h1, Except.map]
  · intro d
    refine ⟨?_, ?_, ?_⟩ <;> simp +decide [convDistance]

/-- C8 witness: a one-record traverse from (35, -80) with bearing `"S"` and
distance 5 feet succeeds with 2 points. -/
theorem points_traverse_spec_witness :
    ∃ pts, points geoShift "feet" { lat := 35, lon := -80 }
        [{ bearing := "S", distance := 5 }] = .ok pts ∧ pts.length = 2 := by
  have hall : ∀ r ∈ [({ bearing := "S", distance := 5 } : Record)],
      exceptIsOk (parse_bearing r.bearing) = true := by
    intro r hr
    simp only [List.mem_singleton] at hr
    subst hr
    show exceptIsOk (parse_bearing "S") = true
    rw [eval_S]
    rfl
  obtain ⟨pts, h1, h2, _⟩ := points_traverse_spec geoShift "feet" { lat := 35, lon := -80 }
    [{ bearing := "S", distance := 5 }] hall
  exact ⟨pts, h1, by simpa using h2⟩

/-- C9: the source never range-checks minutes or seconds, contradicting its
own docstring ("Seconds and minutes must be 0-60"): `"N 0 90 E"`, whose
minutes run is 90, is accepted and returns `90/60 = 3/2` instead of being
rejected. -/
theorem parse_N090E_accepts_minutes_90 :
    parse_bearing "N 0 90 E" = .ok (3 / 2) ∧ aRun2 "N 0 90 E" = ['9', '0'] :=
  ⟨eval_N090E, by decide⟩

/-- C10 (counterexample): the claim says the only possible failures are the
same-axis and out-of-range errors; `parse_bearing "."` fails with a third
kind, the `float(".")` conversion error. -/
theorem parse_dot_badFloat :
    parse_bearing "." = .error .badFloat ∧
    BErr.badFloat ≠ BErr.sameAxis ∧ BErr.badFloat ≠ BErr.outOfRange :=
  ⟨eval_dot, by decide, by decide⟩

/-- C10 (amended): both regex searches always produce a match (every capture
is star-quantified), so the two "Could not parse" branches are unreachable;
but besides the same-axis and out-of-range errors, `parse_bearing` can also
fail converting a captured numeric run to float. -/
theorem parse_failures_classified (s : String) :
    matchPieces bearingPieces s.data = some (greedyRuns bearingPieces s.data) ∧
    matchPieces anglePieces (angleStr s) = some (greedyRuns anglePieces (angleStr s)) ∧
    parse_bearing s ≠ .error .noBearing ∧ parse_bearing s ≠ .error .noAngle ∧
    (parse_bearing s = .error .sameAxis ∨ parse_bearing s = .error .outOfRange ∨
      parse_bearing s = .error .badFloat ∨ ∃ q, parse_bearing s = .ok q) := by
  have key : parse_bearing s = .error .sameAxis ∨ parse_bearing s = .error .outOfRange ∨
      parse_bearing s = .error .badFloat ∨ ∃ q, parse_bearing s = .ok q := by
    have hpre := preNormalize_eq s
    split at hpre
    · exact Or.inl (parse_bearing_of_pre_err _ _ hpre)
    · split at hpre
      · exact Or.inr (Or.inr (Or.inl (parse_bearing_of_pre_err _ _ hpre)))
      · rename_i b hb
        have h := parse_bearing_of_pre_ok _ _ hpre
        by_cases hc : (if b < 0 then b + 360 else b) < 0 ∨ (if b < 0 then b + 360 else b) > 360
        · rw [if_pos hc] at h
          exact Or.inr (Or.inl h)
        · rw [if_neg hc] at h
          exact Or.inr (Or.inr (Or.inr ⟨_, h⟩))
  refine ⟨matchPieces_greedy _ _, matchPieces_greedy _ _, ?_, ?_, key⟩
  · rcases key with h | h | h | ⟨q, h⟩ <;> rw [h] <;> simp
  · rcases key with h | h | h | ⟨q, h⟩ <;> rw [h] <;> simp

/-- C10 witness: instantiation at `"N"` of the unreachability of the two
"Could not parse" branches. -/
theorem parse_failures_classified_witness :
    parse_bearing "N" ≠ .error .noBearing ∧ parse_bearing "N" ≠ .error .noAngle := by
  have h := parse_failures_classified "N"
  exact ⟨h.2.2.1, h.2.2.2.1⟩
